import Mathlib

/-!
# Verification of the gizmo-3d manipulation-gizmo specification

Shallow embedding of the gizmo-3d repository (Qt Quick 3D manipulation
gizmos).  The repository ships its QML implementation outside the test
tree; the tests (`src/tests/*.cpp`) embed QML controllers and handlers
whose logic is translated here verbatim, while the gizmo core
(snap quantizer, interaction state machine, property surface, drawing
primitives) is modelled from the specification, as noted on each
definition.

Values carried by QML `real` properties are modelled as rationals; the
distinguished non-finite values a QML `real` can hold are modelled by
the `QReal` wrapper below.
-/
/-- Modelled from the spec: a QML `real` property value — either a finite
number (modelled as a rational) or one of the non-finite IEEE values the
property system accepts and stores unchanged. -/
inductive QReal where
  | fin : ℚ → QReal
  | posInf : QReal
  | negInf : QReal
  | nan : QReal
deriving DecidableEq, Repr

/-- A `QReal` is a positive finite number. -/
def QReal.isPosFinite : QReal → Bool
  | .fin q => decide (0 < q)
  | _ => false

/-- Modelled from the spec (§4.4 SnapQuantizer, code not in the source tree):
`value' = round(value / increment) * increment` when `enabled` and
`increment` is a positive finite number; otherwise pass-through (zero,
negative, or non-finite increment disables quantization for that event
only; never an error).  `round` is round-half-up, matching JavaScript
`Math.round`. -/
def snapValue (enabled : Bool) (increment : QReal) (value : ℚ) : ℚ :=
  match enabled, increment with
  | true, .fin inc => if 0 < inc then (round (value / inc) : ℤ) * inc else value
  | _, _ => value

/-- Modelled from the spec (§4.4): whether snapping is actually applied to a
value quantized under this configuration (the `snapActive` flag carried by
delta events). -/
def snapIsActive (enabled : Bool) (increment : QReal) : Bool :=
  enabled && increment.isPosFinite

/-- Axis identifiers, convention 0=None, 1=X, 2=Y, 3=Z, 4=Uniform (§6). -/
inductive Axis where
  | none | x | y | z | uniform
deriving DecidableEq, Repr

/-- Numeric id of an axis (the integer convention of the public surface). -/
def Axis.toId : Axis → ℤ
  | .none => 0
  | .x => 1
  | .y => 2
  | .z => 3
  | .uniform => 4

/-- Transform mode, convention 0=World, 1=Local (§6). -/
inductive TransformMode where
  | world | localMode
deriving DecidableEq, Repr

/-- Numeric id of a transform mode. -/
def TransformMode.toId : TransformMode → ℤ
  | .world => 0
  | .localMode => 1

/-! ## Gizmo interaction state machine (spec §4.5, §5, §7) -/
/-- A lifecycle event emitted by a gizmo (Started / Delta / Ended), carrying
the public-surface payloads of §6. -/
inductive GizmoEvent where
  | started (axis : Axis)
  | delta (axis : Axis) (mode : TransformMode) (value : ℚ) (snapActive : Bool)
  | ended (axis : Axis)
deriving DecidableEq, Repr

/-- Modelled from the spec (§3 GizmoInteractionState, code not in the source
tree): the per-instance interaction state.  The drag baseline and start
pointer are scalars here since only their capture discipline matters to the
lifecycle claims. -/
structure GizmoInteractionState where
  activeAxis : Axis
  dragging : Bool
  hasTarget : Bool
deriving DecidableEq, Repr

/-- The idle state with a target node bound. -/
def GizmoInteractionState.idleBound : GizmoInteractionState :=
  { activeAxis := .none, dragging := false, hasTarget := true }

/-- A pointer input delivered by the host, after hit-testing: a press that
hit `hitAxis` (`Axis.none` when no candidate was within tolerance), a move
carrying the raw accumulated delta computed by the DragTracker, a release,
or an external cancellation (lost capture, target unbound, reset). -/
inductive PointerInput where
  | press (hitAxis : Axis)
  | move (value : ℚ)
  | release
  | cancel
deriving DecidableEq, Repr

/-- Modelled from the spec (§4.5 GizmoState machine, §7): one synchronous
input step.  Idle→Dragging on a press that hit a valid axis with a target
bound, emitting Started once; while dragging each move emits a Delta with
the optionally snapped total; release or any cancellation emits Ended with
the last known axis and returns to Idle. -/
def gizmoStep (mode : TransformMode) (snapEnabled : Bool) (increment : QReal)
    (s : GizmoInteractionState) :
    PointerInput → GizmoInteractionState × List GizmoEvent
  | .press a =>
      if s.dragging then (s, [])
      else if s.hasTarget ∧ a ≠ Axis.none then
        ({ s with dragging := true, activeAxis := a }, [.started a])
      else (s, [])
  | .move v =>
      if s.dragging then
        (s, [.delta s.activeAxis mode (snapValue snapEnabled increment v)
              (snapIsActive snapEnabled increment)])
      else (s, [])
  | .release =>
      if s.dragging then
        ({ s with dragging := false, activeAxis := .none }, [.ended s.activeAxis])
      else (s, [])
  | .cancel =>
      if s.dragging then
        ({ s with dragging := false, activeAxis := .none }, [.ended s.activeAxis])
      else (s, [])

/-- Runs the state machine over an input list, concatenating emitted events
in order (§5: strict arrival-order processing). -/
def gizmoRun (mode : TransformMode) (snapEnabled : Bool) (increment : QReal)
    (s : GizmoInteractionState) :
    List PointerInput → GizmoInteractionState × List GizmoEvent
  | [] => (s, [])
  | i :: rest =>
      let (s', evs) := gizmoStep mode snapEnabled increment s i
      let (s'', evs') := gizmoRun mode snapEnabled increment s' rest
      (s'', evs ++ evs')

/-- Number of Started events in a trace. -/
def countStarted : List GizmoEvent → ℕ
  | [] => 0
  | .started _ :: rest => countStarted rest + 1
  | _ :: rest => countStarted rest

/-- Number of Ended events in a trace. -/
def countEnded : List GizmoEvent → ℕ
  | [] => 0
  | .ended _ :: rest => countEnded rest + 1
  | _ :: rest => countEnded rest

/-- The trace of a complete drag on axis `a` with moves `vs` and terminator
`t` (release or cancel). -/
def completeDrag (a : Axis) (vs : List ℚ) (t : PointerInput) : List PointerInput :=
  .press a :: vs.map .move ++ [t]

/-! ## Scene nodes and the per-kind property surface (spec §3, §6, §9) -/
/-- A 3D vector with rational components (models `Qt.vector3d`). -/
structure Vec3 where
  x : ℚ
  y : ℚ
  z : ℚ
deriving DecidableEq, Repr

/-- Modelled from the spec (§6, §9 `SceneNodeRef`): the read-only scene-graph
collaborator — a node exposing position, orientation and scale accessors. -/
structure SceneNode where
  position : Vec3
  eulerRotation : Vec3
  scale : Vec3
deriving DecidableEq, Repr

/-- Modelled from the spec (§6 public property surface, code not in the
source tree): the rotation gizmo's properties.  A property write stores the
value and a read returns the stored value, with no coercion beyond numeric
type. -/
structure RotationGizmoProps where
  gizmoSize : QReal
  activeAxis : ℤ
  snapEnabled : Bool
  snapAngle : QReal
  snapToAbsolute : Bool
  targetNode : Option SceneNode
deriving DecidableEq, Repr

/-- Modelled from the spec (§6): the translation gizmo's properties. -/
structure TranslationGizmoProps where
  gizmoSize : QReal
  activeAxis : ℤ
  snapEnabled : Bool
  snapIncrement : QReal
  snapToAbsolute : Bool
  targetNode : Option SceneNode
deriving DecidableEq, Repr

/-- Modelled from the spec (§6): the scale gizmo's properties. -/
structure ScaleGizmoProps where
  gizmoSize : QReal
  activeAxis : ℤ
  snapEnabled : Bool
  snapIncrement : QReal
  snapToAbsolute : Bool
  arrowStartRatio : QReal
  arrowEndRatio : QReal
  targetNode : Option SceneNode
deriving DecidableEq, Repr

/-- Modelled from the spec (§6 defaults row for the rotation gizmo): a
freshly created rotation gizmo — idle (`activeAxis` 0), no target,
`snapEnabled` false, `snapAngle` 15.0, `snapToAbsolute` true.  The
`gizmoSize` default is not pinned by the spec and stays a parameter. -/
def RotationGizmoProps.create (size : QReal) : RotationGizmoProps :=
  { gizmoSize := size, activeAxis := 0, snapEnabled := false,
    snapAngle := .fin 15, snapToAbsolute := true, targetNode := Option.none }

/-- Modelled from the spec (§6 defaults row for the translation gizmo):
`snapEnabled` false, `snapIncrement` 1.0, `snapToAbsolute` true. -/
def TranslationGizmoProps.create (size : QReal) : TranslationGizmoProps :=
  { gizmoSize := size, activeAxis := 0, snapEnabled := false,
    snapIncrement := .fin 1, snapToAbsolute := true, targetNode := Option.none }

/-- Modelled from the spec (§6): a freshly created scale gizmo, with the
defaults the spec leaves open kept as parameters. -/
def ScaleGizmoProps.create (size incr startR endR : QReal) : ScaleGizmoProps :=
  { gizmoSize := size, activeAxis := 0, snapEnabled := false,
    snapIncrement := incr, snapToAbsolute := true,
    arrowStartRatio := startR, arrowEndRatio := endR, targetNode := Option.none }

/-- Modelled from the spec (§8 property round-trip): writing `gizmoSize`. -/
def RotationGizmoProps.setGizmoSize (g : RotationGizmoProps) (v : QReal) :
    RotationGizmoProps := { g with gizmoSize := v }

/-- Writing `activeAxis` (accepted also while no drag is in progress). -/
def RotationGizmoProps.setActiveAxis (g : RotationGizmoProps) (v : ℤ) :
    RotationGizmoProps := { g with activeAxis := v }

/-- Writing `snapAngle` (any value is accepted and stored, §7). -/
def RotationGizmoProps.setSnapAngle (g : RotationGizmoProps) (v : QReal) :
    RotationGizmoProps := { g with snapAngle := v }

/-- Writing `snapToAbsolute`. -/
def RotationGizmoProps.setSnapToAbsolute (g : RotationGizmoProps) (v : Bool) :
    RotationGizmoProps := { g with snapToAbsolute := v }

/-- Writing `gizmoSize` on a translation gizmo. -/
def TranslationGizmoProps.setGizmoSize (g : TranslationGizmoProps) (v : QReal) :
    TranslationGizmoProps := { g with gizmoSize := v }

/-- Writing `activeAxis` on a translation gizmo. -/
def TranslationGizmoProps.setActiveAxis (g : TranslationGizmoProps) (v : ℤ) :
    TranslationGizmoProps := { g with activeAxis := v }

/-- Writing `snapIncrement` (any value is accepted and stored, §7). -/
def TranslationGizmoProps.setSnapIncrement (g : TranslationGizmoProps) (v : QReal) :
    TranslationGizmoProps := { g with snapIncrement := v }

/-- Writing `snapToAbsolute` on a translation gizmo. -/
def TranslationGizmoProps.setSnapToAbsolute (g : TranslationGizmoProps) (v : Bool) :
    TranslationGizmoProps := { g with snapToAbsolute := v }

/-- Writing `gizmoSize` on a scale gizmo. -/
def ScaleGizmoProps.setGizmoSize (g : ScaleGizmoProps) (v : QReal) :
    ScaleGizmoProps := { g with gizmoSize := v }

/-- Writing `activeAxis` on a scale gizmo. -/
def ScaleGizmoProps.setActiveAxis (g : ScaleGizmoProps) (v : ℤ) :
    ScaleGizmoProps := { g with activeAxis := v }

/-- Writing `snapIncrement` on a scale gizmo. -/
def ScaleGizmoProps.setSnapIncrement (g : ScaleGizmoProps) (v : QReal) :
    ScaleGizmoProps := { g with snapIncrement := v }

/-! ## Target node binding (spec §3, §6, §9) -/
/-- Binding a target node to a rotation gizmo (rebindable at runtime). -/
def RotationGizmoProps.bindTarget (g : RotationGizmoProps) (n : SceneNode) :
    RotationGizmoProps := { g with targetNode := some n }

/-- Binding a target node to a translation gizmo. -/
def TranslationGizmoProps.bindTarget (g : TranslationGizmoProps) (n : SceneNode) :
    TranslationGizmoProps := { g with targetNode := some n }

/-- Binding a target node to a scale gizmo. -/
def ScaleGizmoProps.bindTarget (g : ScaleGizmoProps) (n : SceneNode) :
    ScaleGizmoProps := { g with targetNode := some n }

/-- Modelled from the spec (§9: every read of the target is a fresh lookup
through the non-owning reference): `targetPosition` reads the bound node's
position, and the zero vector when no target is bound. -/
def RotationGizmoProps.targetPosition (g : RotationGizmoProps) : Vec3 :=
  match g.targetNode with
  | some n => n.position
  | Option.none => ⟨0, 0, 0⟩

/-- `targetPosition` of a translation gizmo. -/
def TranslationGizmoProps.targetPosition (g : TranslationGizmoProps) : Vec3 :=
  match g.targetNode with
  | some n => n.position
  | Option.none => ⟨0, 0, 0⟩

/-- `targetPosition` of a scale gizmo. -/
def ScaleGizmoProps.targetPosition (g : ScaleGizmoProps) : Vec3 :=
  match g.targetNode with
  | some n => n.position
  | Option.none => ⟨0, 0, 0⟩

/-! ## The trivial scale controller of `tst_scalegizmo.cpp` (C3) -/
/-- The controller state of `TestScaleGizmo::testTrivialController`: the
target node's scale and the `dragStartScale` baseline property. -/
structure TrivialScaleController where
  targetScale : Vec3
  dragStartScale : Vec3
deriving DecidableEq, Repr

/-- The `onScaleStarted` handler of the test's QML controller: captures the
target's scale as the drag baseline. -/
def onScaleStartedCtrl (st : TrivialScaleController) : TrivialScaleController :=
  { st with dragStartScale := st.targetScale }

/-- The `onScaleDelta` handler of the test's QML controller: writes the
baseline multiplied by the emitted factor into the target's scale, on the
component(s) selected by the axis id (1=X, 2=Y, 3=Z, 4=Uniform). -/
def onScaleDeltaCtrl (st : TrivialScaleController) (axis : ℤ)
    (factor : ℚ) : TrivialScaleController :=
  let ds := st.dragStartScale
  if axis = 1 then { st with targetScale := ⟨ds.x * factor, ds.y, ds.z⟩ }
  else if axis = 2 then { st with targetScale := ⟨ds.x, ds.y * factor, ds.z⟩ }
  else if axis = 3 then { st with targetScale := ⟨ds.x, ds.y, ds.z * factor⟩ }
  else if axis = 4 then
    { st with targetScale := ⟨ds.x * factor, ds.y * factor, ds.z * factor⟩ }
  else st

/-- A signal arriving at the controller, as invoked by the test:
`scaleStarted(axis)` or `scaleDelta(axis, transformMode, factor, snapActive)`. -/
inductive ScaleSignal where
  | started (axis : ℤ)
  | delta (axis transformMode : ℤ) (factor : ℚ) (snapActive : Bool)
deriving DecidableEq, Repr

/-- Runs the controller over a sequence of signals in arrival order (the
delta handler ignores transformMode and snapActive, as the test's does). -/
def runScaleController (st : TrivialScaleController) :
    List ScaleSignal → TrivialScaleController
  | [] => st
  | .started _ :: rest => runScaleController (onScaleStartedCtrl st) rest
  | .delta a _ f _ :: rest => runScaleController (onScaleDeltaCtrl st a f) rest

/-! ## Signal delivery to connected handlers (C7) -/
/-- The recording handler state of `TestScaleGizmo::testSignals`: counters
and last-seen payloads, updated by the connected QML handlers. -/
structure ScaleSignalRecorder where
  startedCount : ℕ
  deltaCount : ℕ
  endedCount : ℕ
  lastAxis : ℤ
  lastScaleFactor : ℚ
  lastSnapActive : Bool
deriving DecidableEq, Repr

/-- The initial recorder state declared by the test's QML item. -/
def ScaleSignalRecorder.initial : ScaleSignalRecorder :=
  { startedCount := 0, deltaCount := 0, endedCount := 0,
    lastAxis := 0, lastScaleFactor := 0, lastSnapActive := false }

/-- A lifecycle signal emission on the scale gizmo's public surface,
carrying exactly the argument tuple of §6. -/
inductive ScaleEmission where
  | started (axis : ℤ)
  | delta (axis transformMode : ℤ) (scaleFactor : ℚ) (snapActive : Bool)
  | ended (axis : ℤ)
deriving DecidableEq, Repr

/-- Modelled from the spec (§9 signal/slot decoupling) and translated from
the test's QML handlers: one emission invokes the connected handler exactly
once with exactly the emitted argument values. -/
def recordScaleSignal (st : ScaleSignalRecorder) : ScaleEmission → ScaleSignalRecorder
  | .started a => { st with startedCount := st.startedCount + 1, lastAxis := a }
  | .delta a _ f sn =>
      { st with
        deltaCount := st.deltaCount + 1
        lastAxis := a
        lastScaleFactor := f
        lastSnapActive := sn }
  | .ended a => { st with endedCount := st.endedCount + 1, lastAxis := a }

/-! ## Drawing primitives (spec §6 drawing collaborator; C8, C10) -/
/-- A symbolic real-valued angle `piCoeff · π + const`, keeping values such
as π/6 exact and the embedding executable. -/
structure AngleExpr where
  piCoeff : ℚ
  const : ℚ
deriving DecidableEq, Repr

/-- The angle q·π radians. -/
def piRadians (q : ℚ) : AngleExpr := ⟨q, 0⟩

/-- A 2D point with rational coordinates. -/
structure Point2 where
  x : ℚ
  y : ℚ
deriving DecidableEq, Repr

/-- A color, identified by its name/spec string (models `QColor`). -/
structure Color where
  name : String
deriving DecidableEq, Repr

/-- Modelled from the spec (the ArrowPrimitive QML component is not in the
source tree): its configurable properties, with the defaults exercised by
`TestArrowPrimitive::testDefaultProperties` — headLength 15.0,
headAngle π/6, lineCap "round". -/
structure ArrowPrimitive where
  headLength : ℚ := 15
  headAngle : AngleExpr := piRadians (1/6)
  lineCap : String := "round"
deriving DecidableEq, Repr

/-- A freshly created arrow primitive (all defaults). -/
def ArrowPrimitive.create : ArrowPrimitive := {}

/-- Modelled from the spec: the CirclePrimitive component's properties, with
the defaults exercised by `TestCirclePrimitive::testDefaultProperties` —
fillAlpha 0.5, lineCap "round", lineJoin "round". -/
structure CirclePrimitive where
  fillAlpha : ℚ := 1/2
  lineCap : String := "round"
  lineJoin : String := "round"
deriving DecidableEq, Repr

/-- A freshly created circle primitive. -/
def CirclePrimitive.create : CirclePrimitive := {}

/-- Modelled from the spec: the PlanePrimitive component's properties, with
the defaults exercised by `TestPlanePrimitive::testDefaultProperties` —
inactiveAlpha 0.3, activeAlpha 0.5, inactiveLineWidth 2, activeLineWidth 3. -/
structure PlanePrimitive where
  inactiveAlpha : ℚ := 3/10
  activeAlpha : ℚ := 1/2
  inactiveLineWidth : ℤ := 2
  activeLineWidth : ℤ := 3
deriving DecidableEq, Repr

/-- A freshly created plane primitive. -/
def PlanePrimitive.create : PlanePrimitive := {}

/-- Modelled from the spec: the SquareHandlePrimitive component's properties,
with the defaults exercised by
`TestSquareHandlePrimitive::testDefaultProperties` — defaultSize 12.0,
lineWidth 1. -/
structure SquareHandlePrimitive where
  defaultSize : ℚ := 12
  lineWidth : ℤ := 1
deriving DecidableEq, Repr

/-- A freshly created square-handle primitive. -/
def SquareHandlePrimitive.create : SquareHandlePrimitive := {}

/-- A recorded drawing operation on a 2D canvas context: enough structure to
state that drawing appends to the supplied context and nowhere else. -/
inductive DrawCmd where
  | arrow (prim : ArrowPrimitive) (start stop : Point2) (color : Color)
      (lineWidth : ℚ)
  | arrowWithSquare (prim : ArrowPrimitive) (start stop : Point2)
      (color : Color) (lineWidth : ℚ) (squareSize : ℚ)
  | circle (prim : CirclePrimitive) (points : List Point2) (color : Color)
      (lineWidth : ℚ)
  | arc (prim : CirclePrimitive) (points : List Point2) (color : Color)
      (lineWidth : ℚ) (arcStart arcEnd : AngleExpr)
  | wedge (prim : CirclePrimitive) (center : Point2) (points : List Point2)
      (color : Color)
  | plane (prim : PlanePrimitive) (points : List Point2) (color : Color)
      (active : Bool)
  | squareHandle (prim : SquareHandlePrimitive) (center : Point2)
      (size : ℚ) (color : Color)
deriving DecidableEq, Repr

/-- A 2D canvas drawing context, as the ordered list of operations drawn
into it. -/
structure DrawContext where
  cmds : List DrawCmd
deriving DecidableEq, Repr

/-- Modelled from the spec (§6: a draw call's side effect is confined to the
supplied drawing context and "must no-op rather than fail if the context is
absent"): the arrow primitive's `draw`. -/
def ArrowPrimitive.draw (p : ArrowPrimitive) (ctx : Option DrawContext)
    (start stop : Point2) (color : Color) (lineWidth : ℚ) : Option DrawContext :=
  match ctx with
  | Option.none => Option.none
  | some c => some ⟨c.cmds ++ [.arrow p start stop color lineWidth]⟩

/-- Modelled from the spec (§6): the arrow primitive's `drawWithSquare`. -/
def ArrowPrimitive.drawWithSquare (p : ArrowPrimitive) (ctx : Option DrawContext)
    (start stop : Point2) (color : Color) (lineWidth squareSize : ℚ) :
    Option DrawContext :=
  match ctx with
  | Option.none => Option.none
  | some c =>
      some ⟨c.cmds ++ [.arrowWithSquare p start stop color lineWidth squareSize]⟩

/-- Modelled from the spec (§6): the circle primitive's `drawCircle`. -/
def CirclePrimitive.drawCircle (p : CirclePrimitive) (ctx : Option DrawContext)
    (points : List Point2) (color : Color) (lineWidth : ℚ) : Option DrawContext :=
  match ctx with
  | Option.none => Option.none
  | some c => some ⟨c.cmds ++ [.circle p points color lineWidth]⟩

/-- Modelled from the spec (§6): the circle primitive's `drawArc`. -/
def CirclePrimitive.drawArc (p : CirclePrimitive) (ctx : Option DrawContext)
    (points : List Point2) (color : Color) (lineWidth : ℚ)
    (arcStart arcEnd : AngleExpr) : Option DrawContext :=
  match ctx with
  | Option.none => Option.none
  | some c => some ⟨c.cmds ++ [.arc p points color lineWidth arcStart arcEnd]⟩

/-- Modelled from the spec (§6): the circle primitive's filled wedge draw. -/
def CirclePrimitive.drawWedge (p : CirclePrimitive) (ctx : Option DrawContext)
    (center : Point2) (points : List Point2) (color : Color) : Option DrawContext :=
  match ctx with
  | Option.none => Option.none
  | some c => some ⟨c.cmds ++ [.wedge p center points color]⟩

/-- Modelled from the spec (§6): the plane primitive's `draw`. -/
def PlanePrimitive.draw (p : PlanePrimitive) (ctx : Option DrawContext)
    (points : List Point2) (color : Color) (active : Bool) : Option DrawContext :=
  match ctx with
  | Option.none => Option.none
  | some c => some ⟨c.cmds ++ [.plane p points color active]⟩

/-- Modelled from the spec (§6): the square-handle primitive's `draw`. -/
def SquareHandlePrimitive.draw (p : SquareHandlePrimitive)
    (ctx : Option DrawContext) (center : Point2) (size : ℚ) (color : Color) :
    Option DrawContext :=
  match ctx with
  | Option.none => Option.none
  | some c => some ⟨c.cmds ++ [.squareHandle p center size color]⟩

/-! ## Supporting lemmas -/

/-- A snap configuration whose increment is not a positive finite number is
a pass-through for every value and either enabled flag (spec §4.4, §7). -/
lemma snapValue_of_not_posFinite (increment : QReal) (value : ℚ)
    (hni : increment.isPosFinite = false) (enabled : Bool) :
    snapValue enabled increment value = value := by
  cases enabled with
  | false => cases increment <;> rfl
  | true =>
    cases increment with
    | fin q =>
      simp [QReal.isPosFinite, decide_eq_false_iff_not] at hni
      simp [snapValue, hni]
    | posInf => rfl
    | negInf => rfl
    | nan => rfl

lemma gizmoRun_cons (mode : TransformMode) (snapEnabled : Bool) (increment : QReal)
    (s : GizmoInteractionState) (i : PointerInput) (rest : List PointerInput) :
    gizmoRun mode snapEnabled increment s (i :: rest) =
      ((gizmoRun mode snapEnabled increment
          (gizmoStep mode snapEnabled increment s i).1 rest).1,
        (gizmoStep mode snapEnabled increment s i).2 ++
          (gizmoRun mode snapEnabled increment
            (gizmoStep mode snapEnabled increment s i).1 rest).2) := by
  simp [gizmoRun]

lemma gizmoRun_moves (mode : TransformMode) (snapEnabled : Bool) (increment : QReal)
    (a : Axis) (hT : Bool) (vs : List ℚ) (tail : List PointerInput) :
    gizmoRun mode snapEnabled increment
        { activeAxis := a, dragging := true, hasTarget := hT }
        (vs.map .move ++ tail) =
      ((gizmoRun mode snapEnabled increment
          { activeAxis := a, dragging := true, hasTarget := hT } tail).1,
        vs.map (fun v => GizmoEvent.delta a mode (snapValue snapEnabled increment v)
            (snapIsActive snapEnabled increment)) ++
          (gizmoRun mode snapEnabled increment
            { activeAxis := a, dragging := true, hasTarget := hT } tail).2) := by
  induction vs with
  | nil => simp
  | cons v vs ih => simp [gizmoRun_cons, gizmoStep, ih]

lemma countStarted_append (l₁ l₂ : List GizmoEvent) :
    countStarted (l₁ ++ l₂) = countStarted l₁ + countStarted l₂ := by
  induction l₁ with
  | nil => simp [countStarted]
  | cons e rest ih => cases e <;> simp [countStarted, ih, Nat.add_right_comm]

lemma countEnded_append (l₁ l₂ : List GizmoEvent) :
    countEnded (l₁ ++ l₂) = countEnded l₁ + countEnded l₂ := by
  induction l₁ with
  | nil => simp [countEnded]
  | cons e rest ih => cases e <;> simp [countEnded, ih, Nat.add_right_comm]

lemma gizmoRun_pairing (mode : TransformMode) (snapEnabled : Bool) (increment : QReal)
    (s : GizmoInteractionState) (inputs : List PointerInput) :
    countStarted (gizmoRun mode snapEnabled increment s inputs).2 +
        (if s.dragging then 1 else 0) =
      countEnded (gizmoRun mode snapEnabled increment s inputs).2 +
        (if (gizmoRun mode snapEnabled increment s inputs).1.dragging then 1 else 0) := by
  induction inputs generalizing s with
  | nil => simp [gizmoRun, countStarted, countEnded]
  | cons i rest ih =>
    rw [gizmoRun_cons]
    rw [countStarted_append, countEnded_append]
    cases i with
    | press a =>
      by_cases hd : s.dragging
      · have h := ih s
        simp [gizmoStep, hd, countStarted, countEnded] at h ⊢
        omega
      · by_cases hv : s.hasTarget ∧ a ≠ Axis.none
        · have h := ih { s with dragging := true, activeAxis := a }
          simp [gizmoStep, hd, hv, countStarted, countEnded] at h ⊢
          omega
        · have h := ih s
          simp [gizmoStep, hd, hv, countStarted, countEnded] at h ⊢
          omega
    | move v =>
      by_cases hd : s.dragging
      · have h := ih s
        simp [gizmoStep, hd, countStarted, countEnded] at h ⊢
        omega
      · have h := ih s
        simp [gizmoStep, hd, countStarted, countEnded] at h ⊢
        omega
    | release =>
      by_cases hd : s.dragging
      · have h := ih { s with dragging := false, activeAxis := .none }
        simp [gizmoStep, hd, countStarted, countEnded] at h ⊢
        omega
      · have h := ih s
        simp [gizmoStep, hd, countStarted, countEnded] at h ⊢
        omega
    | cancel =>
      by_cases hd : s.dragging
      · have h := ih { s with dragging := false, activeAxis := .none }
        simp [gizmoStep, hd, countStarted, countEnded] at h ⊢
        omega
      · have h := ih s
        simp [gizmoStep, hd, countStarted, countEnded] at h ⊢
        omega

/-! ## Claim theorems -/

/-- C1: with snapping enabled and a positive finite increment, the quantized
output is round(value / increment) * increment — increment 15 on accumulated
angle 44 yields 45 — and a zero, negative or non-finite increment passes the
raw value through unchanged. -/
theorem snapValue_spec :
    (∀ inc value : ℚ, 0 < inc →
      snapValue true (.fin inc) value = (round (value / inc) : ℤ) * inc)
    ∧ snapValue true (.fin 15) 44 = 45
    ∧ (∀ (increment : QReal) (value : ℚ), increment.isPosFinite = false →
        ∀ enabled : Bool, snapValue enabled increment value = value) := by
  refine ⟨fun inc value h => by simp [snapValue, h],
    by norm_num [snapValue, round_eq], ?_⟩
  intro increment value hni enabled
  exact snapValue_of_not_posFinite increment value hni enabled

/-- Witness for `snapValue_spec`: instantiated at increment 15, value 44, and
at the non-finite increment `nan`. -/
theorem snapValue_spec_witness :
    snapValue true (.fin 15) 44 = 45 ∧ snapValue true .nan 44 = 44 := by
  refine ⟨snapValue_spec.2.1, snapValue_spec.2.2 .nan 44 (by decide) true⟩

/-- C2: for every axis A in {X, Y, Z}, a complete drag on A with a bound
target (press hitting A, any move samples, then release or cancel) emits
Started(A) exactly once before any Delta and Ended(A) exactly once after the
last Delta — the trace is literally Started :: Deltas ++ [Ended] — ending
idle; and over any input sequence from idle, Started and Ended counts differ
exactly by the one drag still open, so every Ended pairs with one prior
Started even on abnormal termination. -/
theorem drag_lifecycle (a : Axis) (ha : a = .x ∨ a = .y ∨ a = .z)
    (mode : TransformMode) (snapEnabled : Bool) (increment : QReal)
    (vs : List ℚ) (t : PointerInput) (ht : t = .release ∨ t = .cancel) :
    (gizmoRun mode snapEnabled increment .idleBound (completeDrag a vs t)).2 =
        GizmoEvent.started a ::
          (vs.map (fun v => GizmoEvent.delta a mode
              (snapValue snapEnabled increment v)
              (snapIsActive snapEnabled increment)) ++ [GizmoEvent.ended a])
      ∧ (gizmoRun mode snapEnabled increment .idleBound (completeDrag a vs t)).1
          = { activeAxis := .none, dragging := false, hasTarget := true }
      ∧ ∀ inputs : List PointerInput,
          countStarted (gizmoRun mode snapEnabled increment .idleBound inputs).2 =
            countEnded (gizmoRun mode snapEnabled increment .idleBound inputs).2 +
              (if (gizmoRun mode snapEnabled increment .idleBound inputs).1.dragging
                then 1 else 0) := by
  have hna : a ≠ Axis.none := by rcases ha with h | h | h <;> subst h <;> decide
  have hstep : gizmoStep mode snapEnabled increment .idleBound (.press a) =
      ({ activeAxis := a, dragging := true, hasTarget := true },
        [GizmoEvent.started a]) := by
    simp [gizmoStep, GizmoInteractionState.idleBound, hna]
  have hterm : gizmoRun mode snapEnabled increment
      { activeAxis := a, dragging := true, hasTarget := true } [t] =
      ({ activeAxis := .none, dragging := false, hasTarget := true },
        [GizmoEvent.ended a]) := by
    rcases ht with h | h <;> subst h <;> simp [gizmoRun_cons, gizmoStep, gizmoRun]
  refine ⟨?_, ?_, ?_⟩
  · rw [completeDrag, List.cons_append, gizmoRun_cons, hstep]
    rw [gizmoRun_moves mode snapEnabled increment a true vs [t], hterm]
    simp
  · rw [completeDrag, List.cons_append, gizmoRun_cons, hstep]
    rw [gizmoRun_moves mode snapEnabled increment a true vs [t], hterm]
  · intro inputs
    have h := gizmoRun_pairing mode snapEnabled increment .idleBound inputs
    simpa [GizmoInteractionState.idleBound] using h

/-- Witness for `drag_lifecycle`: a concrete complete drag on the X axis with
two move samples and a cancel terminator emits exactly
Started, Delta, Delta, Ended. -/
theorem drag_lifecycle_witness :
    (gizmoRun .world false (.fin 1) .idleBound
        (completeDrag .x [3, 7] .cancel)).2 =
      [GizmoEvent.started .x,
        GizmoEvent.delta .x .world 3 false,
        GizmoEvent.delta .x .world 7 false,
        GizmoEvent.ended .x] := by
  have h := (drag_lifecycle .x (Or.inl rfl) .world false (.fin 1) [3, 7]
      .cancel (Or.inr rfl)).1
  simpa [snapValue, snapIsActive] using h

/-- C3: from unit scale, a drag emitting scaleDelta(X, factor 2.0) followed
by a drag emitting scaleDelta(Uniform, factor 0.5) — each drag capturing its
baseline at Started — leaves the target scale at exactly (1.0, 0.5, 0.5)
(with (2.0, 1.0, 1.0) after the first drag). -/
theorem scale_composition :
    (runScaleController ⟨⟨1, 1, 1⟩, ⟨1, 1, 1⟩⟩
        [.started 1, .delta 1 0 2 false]).targetScale = ⟨2, 1, 1⟩
    ∧ (runScaleController ⟨⟨1, 1, 1⟩, ⟨1, 1, 1⟩⟩
        [.started 1, .delta 1 0 2 false,
          .started 4, .delta 4 0 (1/2) false]).targetScale = ⟨1, 1/2, 1/2⟩ := by
  constructor <;>
    norm_num [runScaleController, onScaleStartedCtrl, onScaleDeltaCtrl]

/-- C4: a fresh rotation gizmo has snapEnabled false, snapAngle 15.0 and
snapToAbsolute true; a fresh translation gizmo has snapEnabled false,
snapIncrement 1.0 and snapToAbsolute true. -/
theorem gizmo_default_values (size : QReal) :
    (RotationGizmoProps.create size).snapEnabled = false
    ∧ (RotationGizmoProps.create size).snapAngle = .fin 15
    ∧ (RotationGizmoProps.create size).snapToAbsolute = true
    ∧ (TranslationGizmoProps.create size).snapEnabled = false
    ∧ (TranslationGizmoProps.create size).snapIncrement = .fin 1
    ∧ (TranslationGizmoProps.create size).snapToAbsolute = true := by
  exact ⟨rfl, rfl, rfl, rfl, rfl, rfl⟩

/-- C5: for every gizmo kind, writing gizmoSize, activeAxis, snapIncrement,
snapAngle or snapToAbsolute and reading the property back yields exactly the
just-written value — including a nonzero activeAxis while no drag is in
progress. -/
theorem property_round_trip :
    (∀ (g : RotationGizmoProps) (v : QReal), (g.setGizmoSize v).gizmoSize = v)
    ∧ (∀ (g : RotationGizmoProps) (v : ℤ), (g.setActiveAxis v).activeAxis = v)
    ∧ (∀ (g : RotationGizmoProps) (v : QReal), (g.setSnapAngle v).snapAngle = v)
    ∧ (∀ (g : RotationGizmoProps) (v : Bool),
        (g.setSnapToAbsolute v).snapToAbsolute = v)
    ∧ (∀ (g : TranslationGizmoProps) (v : QReal), (g.setGizmoSize v).gizmoSize = v)
    ∧ (∀ (g : TranslationGizmoProps) (v : ℤ), (g.setActiveAxis v).activeAxis = v)
    ∧ (∀ (g : TranslationGizmoProps) (v : QReal),
        (g.setSnapIncrement v).snapIncrement = v)
    ∧ (∀ (g : TranslationGizmoProps) (v : Bool),
        (g.setSnapToAbsolute v).snapToAbsolute = v)
    ∧ (∀ (g : ScaleGizmoProps) (v : QReal), (g.setGizmoSize v).gizmoSize = v)
    ∧ (∀ (g : ScaleGizmoProps) (v : ℤ), (g.setActiveAxis v).activeAxis = v)
    ∧ (∀ (g : ScaleGizmoProps) (v : QReal), (g.setSnapIncrement v).snapIncrement = v) := by
  refine ⟨fun g v => rfl, fun g v => rfl, fun g v => rfl, fun g v => rfl,
    fun g v => rfl, fun g v => rfl, fun g v => rfl, fun g v => rfl,
    fun g v => rfl, fun g v => rfl, fun g v => rfl⟩

/-- C6: a snap increment ≤ 0 or non-finite is accepted by the property write,
reads back exactly, and snapping is silently a pass-through for every value
quantized under it (the setters and `snapValue` are total functions — no
fault is ever raised). -/
theorem invalid_snap_increment (inc : QReal) (hinc : inc.isPosFinite = false) :
    (∀ g : TranslationGizmoProps, (g.setSnapIncrement inc).snapIncrement = inc)
    ∧ (∀ g : RotationGizmoProps, (g.setSnapAngle inc).snapAngle = inc)
    ∧ (∀ g : ScaleGizmoProps, (g.setSnapIncrement inc).snapIncrement = inc)
    ∧ (∀ (enabled : Bool) (value : ℚ), snapValue enabled inc value = value) := by
  exact ⟨fun g => rfl, fun g => rfl, fun g => rfl,
    fun enabled value => snapValue_of_not_posFinite inc value hinc enabled⟩

/-- Witness for `invalid_snap_increment`: the increments 0 and −1 of the test
and the non-finite increment are all not positive-finite; at increment −1 a
translation gizmo reads back −1 and value 44 passes through. -/
theorem invalid_snap_increment_witness :
    ((TranslationGizmoProps.create (.fin 100)).setSnapIncrement
        (.fin (-1))).snapIncrement = .fin (-1)
    ∧ snapValue true (.fin (-1)) 44 = 44 := by
  have h := invalid_snap_increment (.fin (-1)) (by decide)
  exact ⟨h.1 _, h.2.2.2 true 44⟩

/-- C7: a Delta emission carries the full (axis, transformMode, value,
snapActive) tuple and the connected handler observes exactly the emitted
values with the delta count incremented by exactly one — in particular
scaleDelta(1, 0, 1.5, true) from the initial state yields deltaCount 1,
lastScaleFactor 1.5 and lastSnapActive true, leaving the other counters
untouched. -/
theorem delta_signal_delivery :
    (∀ (st : ScaleSignalRecorder) (a m : ℤ) (f : ℚ) (sn : Bool),
        (recordScaleSignal st (.delta a m f sn)).deltaCount = st.deltaCount + 1
        ∧ (recordScaleSignal st (.delta a m f sn)).lastAxis = a
        ∧ (recordScaleSignal st (.delta a m f sn)).lastScaleFactor = f
        ∧ (recordScaleSignal st (.delta a m f sn)).lastSnapActive = sn
        ∧ (recordScaleSignal st (.delta a m f sn)).startedCount = st.startedCount
        ∧ (recordScaleSignal st (.delta a m f sn)).endedCount = st.endedCount)
    ∧ recordScaleSignal .initial (.delta 1 0 (3/2) true) =
        { startedCount := 0, deltaCount := 1, endedCount := 0,
          lastAxis := 1, lastScaleFactor := 3/2, lastSnapActive := true } := by
  exact ⟨fun st a m f sn => ⟨rfl, rfl, rfl, rfl, rfl, rfl⟩, rfl⟩

/-- C8: for every drawing primitive, invoking its draw operation with an
absent (null) context is a no-op for every choice of the other arguments:
each draw is a total function that returns the absent context unchanged,
so nothing ever throws past the drawing boundary. -/
theorem draw_null_context_noop :
    (∀ (p : ArrowPrimitive) (s e : Point2) (c : Color) (w : ℚ),
        p.draw Option.none s e c w = Option.none)
    ∧ (∀ (p : ArrowPrimitive) (s e : Point2) (c : Color) (w sq : ℚ),
        p.drawWithSquare Option.none s e c w sq = Option.none)
    ∧ (∀ (p : CirclePrimitive) (pts : List Point2) (c : Color) (w : ℚ),
        p.drawCircle Option.none pts c w = Option.none)
    ∧ (∀ (p : CirclePrimitive) (pts : List Point2) (c : Color) (w : ℚ)
        (a b : AngleExpr), p.drawArc Option.none pts c w a b = Option.none)
    ∧ (∀ (p : CirclePrimitive) (ctr : Point2) (pts : List Point2) (c : Color),
        p.drawWedge Option.none ctr pts c = Option.none)
    ∧ (∀ (p : PlanePrimitive) (pts : List Point2) (c : Color) (act : Bool),
        p.draw Option.none pts c act = Option.none)
    ∧ (∀ (p : SquareHandlePrimitive) (ctr : Point2) (sz : ℚ) (c : Color),
        p.draw Option.none ctr sz c = Option.none) := by
  exact ⟨fun p s e c w => rfl, fun p s e c w sq => rfl, fun p pts c w => rfl,
    fun p pts c w a b => rfl, fun p ctr pts c => rfl, fun p pts c act => rfl,
    fun p ctr sz c => rfl⟩

/-- C9: for every gizmo kind, after binding a target node the gizmo's
readable `targetPosition` equals the bound node's position — in particular a
node at (10, 20, 30) reads back exactly (10, 20, 30). -/
theorem target_position_tracks_node :
    (∀ (g : RotationGizmoProps) (n : SceneNode),
        (g.bindTarget n).targetPosition = n.position)
    ∧ (∀ (g : TranslationGizmoProps) (n : SceneNode),
        (g.bindTarget n).targetPosition = n.position)
    ∧ (∀ (g : ScaleGizmoProps) (n : SceneNode),
        (g.bindTarget n).targetPosition = n.position)
    ∧ ((RotationGizmoProps.create (.fin 100)).bindTarget
        ⟨⟨10, 20, 30⟩, ⟨45, 90, 0⟩, ⟨1, 1, 1⟩⟩).targetPosition = ⟨10, 20, 30⟩ := by
  exact ⟨fun g n => rfl, fun g n => rfl, fun g n => rfl, rfl⟩

/-- C10: fresh drawing primitives carry exactly the default property values
the tests pin down: arrow headLength 15.0, headAngle π/6, lineCap "round";
circle fillAlpha 0.5, lineCap "round", lineJoin "round"; plane inactiveAlpha
0.3, activeAlpha 0.5, inactiveLineWidth 2, activeLineWidth 3; square handle
defaultSize 12.0, lineWidth 1. -/
theorem primitive_default_properties :
    ArrowPrimitive.create.headLength = 15
    ∧ ArrowPrimitive.create.headAngle = piRadians (1/6)
    ∧ ArrowPrimitive.create.lineCap = "round"
    ∧ CirclePrimitive.create.fillAlpha = 1/2
    ∧ CirclePrimitive.create.lineCap = "round"
    ∧ CirclePrimitive.create.lineJoin = "round"
    ∧ PlanePrimitive.create.inactiveAlpha = 3/10
    ∧ PlanePrimitive.create.activeAlpha = 1/2
    ∧ PlanePrimitive.create.inactiveLineWidth = 2
    ∧ PlanePrimitive.create.activeLineWidth = 3
    ∧ SquareHandlePrimitive.create.defaultSize = 12
    ∧ SquareHandlePrimitive.create.lineWidth = 1 := by
  exact ⟨rfl, rfl, rfl, rfl, rfl, rfl, rfl, rfl, rfl, rfl, rfl, rfl⟩
